import Mathlib

/-!
Shallow embedding of the `ethglobal` audio-upload application.

Two pieces of custom code are modelled, straight from the source:

* `src/ask-world/src/app/api/upload-walrus/route.ts` — the server route
  `POST`: parses the multipart form, rejects a missing audio blob with a
  400 `{ error: "No audio blob provided" }`, otherwise converts the blob
  to a byte array, calls the Walrus client's `writeBlob` with a fixed
  hardcoded signer key and fixed storage parameters, and answers either
  `{ success: true, blobId, message }` or, on any caught exception,
  `{ error: "Failed to upload to Walrus: " + message }` with status 500.

* `src/ask-world/src/components/AudioRecorder.tsx` — the client
  component: handlers `startRecording`, `stopRecording`, the recorder's
  `onstop` callback, and `handleUpload`, plus the buttons' disabled
  conditions, which gate which handler can fire in which state.

External effects (form parsing, the Walrus `writeBlob` network call, the
browser `fetch`, `getUserMedia`) are passed in as environment values of
type `Except String _`: `.error m` models a thrown exception whose
`.message` is `m`.
-/

/-- A JSON value as it appears in the route's response bodies:
only booleans and strings occur. -/
inductive JsonValue where
  | bool (b : Bool) : JsonValue
  | str (s : String) : JsonValue
deriving DecidableEq, Repr

/-- A JSON response body: an ordered list of key/value fields, in the
order the object literal writes them. -/
abbrev JsonBody := List (String × JsonValue)

/-- One call to `suiClient.walrus.writeBlob` as issued by the route:
the byte array passed as `blob`, the `deletable` and `epochs` options,
and the base64 secret key the `signer` keypair was derived from. -/
structure WriteBlobCall where
  blob : List Nat
  deletable : Bool
  epochs : Nat
  signerKeyB64 : String
deriving DecidableEq, Repr

/-- The hardcoded base64 private key embedded in the route source
(`const privateKey = "cixQ..."`), from which `Ed25519Keypair.fromSecretKey`
derives the signer. -/
def walrusPrivateKeyB64 : String := "cixQDTswNJCcWkigndtmaqU23Myv+dU8x1+/YCkofXk="

/-- Environment of one `POST` request: the outcome of
`request.formData()` / `formData.get("audio")` (a thrown exception, no
audio entry, or the audio blob's bytes), and the outcome of the Walrus
`writeBlob` call on given bytes (a thrown exception or the returned
`blobId`). -/
structure RouteEnv where
  formData : Except String (Option (List Nat))
  writeBlob : List Nat → Except String String

/-- What a `POST` invocation produces: the HTTP status, the JSON body,
and the list of `writeBlob` calls it issued. -/
structure RouteResult where
  status : Nat
  body : JsonBody
  calls : List WriteBlobCall
deriving Repr

/-- The route handler `POST` of `upload-walrus/route.ts`, translated
branch for branch. `NextResponse.json` with no status option answers 200. -/
def POST (env : RouteEnv) : RouteResult :=
  match env.formData with
  | Except.error msg =>
      { status := 500
        body := [("error", JsonValue.str ("Failed to upload to Walrus: " ++ msg))]
        calls := [] }
  | Except.ok none =>
      { status := 400
        body := [("error", JsonValue.str "No audio blob provided")]
        calls := [] }
  | Except.ok (some audioBlob) =>
      let call : WriteBlobCall :=
        { blob := audioBlob
          deletable := false
          epochs := 3
          signerKeyB64 := walrusPrivateKeyB64 }
      match env.writeBlob audioBlob with
      | Except.error msg =>
          { status := 500
            body := [("error", JsonValue.str ("Failed to upload to Walrus: " ++ msg))]
            calls := [call] }
      | Except.ok blobId =>
          { status := 200
            body := [("success", JsonValue.bool true),
                     ("blobId", JsonValue.str blobId),
                     ("message", JsonValue.str "Audio uploaded successfully to Walrus")]
            calls := [call] }

/-- The keys of a response body, in order. -/
def bodyKeys (r : RouteResult) : List String := r.body.map Prod.fst

/-- Whether the response body has a field named `k`. -/
def hasField (r : RouteResult) (k : String) : Bool := (bodyKeys r).contains k

/-- The request's environment raised an exception with message `m` inside
the route's `try` block: either `formData` parsing threw, or the audio
blob was present and `writeBlob` threw. -/
def envThrows (env : RouteEnv) (m : String) : Prop :=
  env.formData = Except.error m ∨
    ∃ blob, env.formData = Except.ok (some blob) ∧ env.writeBlob blob = Except.error m

/-- Claim C7 as the spec states it: every `error` field the route
returns carries the message of a caught exception, prefixed by the
route's fixed prefix. -/
def errorIsPassThrough (env : RouteEnv) : Prop :=
  ∀ v, ("error", JsonValue.str v) ∈ (POST env).body →
    ∃ m, envThrows env m ∧ v = "Failed to upload to Walrus: " ++ m

/-- C1: the response body contains a `blobId` field if and only if the
upload succeeded, i.e. the form held an audio blob and `writeBlob`
completed, returning an identifier. -/
theorem blobId_iff_upload_succeeded (env : RouteEnv) :
    hasField (POST env) "blobId" = true ↔
      ∃ blob blobId, env.formData = Except.ok (some blob) ∧
        env.writeBlob blob = Except.ok blobId := by
  constructor
  · intro h
    match hfd : env.formData with
    | Except.error msg => simp [hasField, bodyKeys, POST, hfd] at h
    | Except.ok none => simp [hasField, bodyKeys, POST, hfd] at h
    | Except.ok (some blob) =>
      match hwb : env.writeBlob blob with
      | Except.error msg => simp [hasField, bodyKeys, POST, hfd, hwb] at h
      | Except.ok blobId => exact ⟨blob, blobId, rfl, hwb⟩
  · rintro ⟨blob, blobId, hfd, hwb⟩
    simp [hasField, bodyKeys, POST, hfd, hwb]

/-- C2 counterexample: on a request whose upload succeeds, the response
body's fields are `success`, `blobId` and `message` — not precisely
`success` and `blobId`, and not `error` either. -/
theorem success_body_not_two_fields :
    bodyKeys (POST { formData := Except.ok (some [1, 2, 3]),
                     writeBlob := fun _ => Except.ok "idA" }) ≠ ["success", "blobId"] ∧
    bodyKeys (POST { formData := Except.ok (some [1, 2, 3]),
                     writeBlob := fun _ => Except.ok "idA" }) ≠ ["error"] ∧
    bodyKeys (POST { formData := Except.ok (some [1, 2, 3]),
                     writeBlob := fun _ => Except.ok "idA" }) =
      ["success", "blobId", "message"] := by
  refine ⟨?_, ?_, ?_⟩ <;> simp [bodyKeys, POST]

/-- C2 amended: every response body is exactly one of the two shapes
`{ success, blobId, message }` (the success branch) or `{ error }`
(both failure branches). -/
theorem body_shape (env : RouteEnv) :
    bodyKeys (POST env) = ["success", "blobId", "message"] ∨
      bodyKeys (POST env) = ["error"] := by
  match hfd : env.formData with
  | Except.error msg => right; simp [bodyKeys, POST, hfd]
  | Except.ok none => right; simp [bodyKeys, POST, hfd]
  | Except.ok (some blob) =>
    match hwb : env.writeBlob blob with
    | Except.error msg => right; simp [bodyKeys, POST, hfd, hwb]
    | Except.ok blobId => left; simp [bodyKeys, POST, hfd, hwb]

/-- C4: when the form carries an audio blob, the route issues exactly one
`writeBlob` call and the byte sequence passed to it is the uploaded
blob's byte sequence, unchanged. -/
theorem writeBlob_gets_uploaded_bytes (env : RouteEnv) (blob : List Nat)
    (hfd : env.formData = Except.ok (some blob)) :
    (POST env).calls.map WriteBlobCall.blob = [blob] := by
  match hwb : env.writeBlob blob with
  | Except.error msg => simp [POST, hfd, hwb]
  | Except.ok blobId => simp [POST, hfd, hwb]

/-- C4 witness. -/
theorem writeBlob_gets_uploaded_bytes_witness :
    (POST { formData := Except.ok (some [7, 8]),
            writeBlob := fun _ => Except.ok "idB" }).calls.map WriteBlobCall.blob =
      [[7, 8]] :=
  writeBlob_gets_uploaded_bytes
    { formData := Except.ok (some [7, 8]), writeBlob := fun _ => Except.ok "idB" }
    [7, 8] rfl

/-- C8: every `writeBlob` call the route issues, for every request, uses
the signer derived from the one hardcoded private key and the fixed
storage parameters `deletable := false`, `epochs := 3`; in particular any
two calls from any two requests carry the same signer key. -/
theorem writeBlob_fixed_signer_and_params (env : RouteEnv) (c : WriteBlobCall)
    (hc : c ∈ (POST env).calls) :
    c.signerKeyB64 = walrusPrivateKeyB64 ∧ c.deletable = false ∧ c.epochs = 3 := by
  match hfd : env.formData with
  | Except.error msg => simp [POST, hfd] at hc
  | Except.ok none => simp [POST, hfd] at hc
  | Except.ok (some blob) =>
    match hwb : env.writeBlob blob with
    | Except.error msg =>
      simp [POST, hfd, hwb] at hc
      subst hc; exact ⟨rfl, rfl, rfl⟩
    | Except.ok blobId =>
      simp [POST, hfd, hwb] at hc
      subst hc; exact ⟨rfl, rfl, rfl⟩

/-- C8 witness. -/
theorem writeBlob_fixed_signer_and_params_witness :
    ({ blob := [9], deletable := false, epochs := 3,
       signerKeyB64 := walrusPrivateKeyB64 } : WriteBlobCall).signerKeyB64 =
      walrusPrivateKeyB64 ∧
    ({ blob := [9], deletable := false, epochs := 3,
       signerKeyB64 := walrusPrivateKeyB64 } : WriteBlobCall).deletable = false ∧
    ({ blob := [9], deletable := false, epochs := 3,
       signerKeyB64 := walrusPrivateKeyB64 } : WriteBlobCall).epochs = 3 :=
  writeBlob_fixed_signer_and_params
    { formData := Except.ok (some [9]), writeBlob := fun _ => Except.ok "idC" }
    { blob := [9], deletable := false, epochs := 3, signerKeyB64 := walrusPrivateKeyB64 }
    (by simp [POST])

/-- C7 counterexample: on a request with no audio blob, the route answers
with the error string "No audio blob provided", which is not the
pass-through of any caught exception's message — no exception was raised
at all. -/
theorem missing_blob_error_not_pass_through :
    ¬ errorIsPassThrough { formData := Except.ok none,
                           writeBlob := fun _ => Except.ok "" } := by
  intro h
  obtain ⟨m, hthrows, _⟩ := h "No audio blob provided" (by simp [POST])
  rcases hthrows with hfd | ⟨blob, hfd, _⟩ <;> simp at hfd

/-- C7 amended: every `error` field the route returns is either the
pass-through of a caught exception's message behind the fixed prefix
"Failed to upload to Walrus: ", or the route's single own validation
error "No audio blob provided", answered when the form has no audio
blob. -/
theorem error_pass_through_or_missing_blob (env : RouteEnv) (v : String)
    (hv : ("error", JsonValue.str v) ∈ (POST env).body) :
    (∃ m, envThrows env m ∧ v = "Failed to upload to Walrus: " ++ m) ∨
      (v = "No audio blob provided" ∧ env.formData = Except.ok none) := by
  match hfd : env.formData with
  | Except.error msg =>
    simp [POST, hfd] at hv
    exact Or.inl ⟨msg, Or.inl hfd, hv⟩
  | Except.ok none =>
    simp [POST, hfd] at hv
    exact Or.inr ⟨hv, rfl⟩
  | Except.ok (some blob) =>
    match hwb : env.writeBlob blob with
    | Except.error msg =>
      simp [POST, hfd, hwb] at hv
      exact Or.inl ⟨msg, Or.inr ⟨blob, hfd, hwb⟩, hv⟩
    | Except.ok blobId =>
      simp [POST, hfd, hwb] at hv

/-- C7 amended witness. -/
theorem error_pass_through_or_missing_blob_witness :
    (∃ m, envThrows { formData := Except.ok (some [4]),
                      writeBlob := fun _ => Except.error "boom" } m ∧
        "Failed to upload to Walrus: boom" = "Failed to upload to Walrus: " ++ m) ∨
      ("Failed to upload to Walrus: boom" = "No audio blob provided" ∧
        ({ formData := Except.ok (some [4]),
           writeBlob := fun _ => Except.error "boom" } : RouteEnv).formData =
          Except.ok none) :=
  error_pass_through_or_missing_blob
    { formData := Except.ok (some [4]), writeBlob := fun _ => Except.error "boom" }
    "Failed to upload to Walrus: boom" (by simp [POST])

/-! ### The `AudioRecorder` component -/

/-- The `toastType` state: 'success' | 'error'. -/
inductive ToastType where
  | success : ToastType
  | error : ToastType
deriving DecidableEq, Repr

/-- The component's React state, plus the `mediaRecorderRef` ref modelled
as the flag "the ref currently holds a recorder". -/
structure RecorderState where
  isRecording : Bool
  audioBlob : Option (List Nat)
  uploading : Bool
  uploadStatus : String
  showToast : Bool
  toastType : ToastType
  blobId : Option String
  mediaRecorder : Bool
deriving DecidableEq, Repr

/-- The initial state set by the `useState` / `useRef` initialisers. -/
def recorderInit : RecorderState :=
  { isRecording := false
    audioBlob := none
    uploading := false
    uploadStatus := ""
    showToast := false
    toastType := ToastType.success
    blobId := none
    mediaRecorder := false }

/-- The parsed JSON of the upload route's response as `handleUpload`
reads it: `response.ok`, the truthiness of `result.success`, and the
optional fields `result.blobId` and `result.error`. -/
structure FetchResult where
  ok : Bool
  success : Bool
  blobId : Option String
  error : Option String
deriving DecidableEq, Repr

/-- Template interpolation of `result.blobId`: an absent field prints as
"undefined". -/
def blobIdText : Option String → String
  | none => "undefined"
  | some s => s

/-- JavaScript `result.error || 'Unknown error'`: an absent or empty
(falsy) string falls back to 'Unknown error'. -/
def jsErrorOrUnknown : Option String → String
  | none => "Unknown error"
  | some s => if s = "" then "Unknown error" else s

/-- The synchronous head of `handleUpload` once the `audioBlob` guard has
passed: `setUploading(true)`, `setUploadStatus('Uploading to Walrus...')`,
`setShowToast(false)`, `setBlobId(null)`. -/
def handleUploadBegin (s : RecorderState) : RecorderState :=
  { s with uploading := true
           uploadStatus := "Uploading to Walrus..."
           showToast := false
           blobId := none }

/-- The continuation of `handleUpload` after the awaited fetch/parse:
the `try` body's branch on `response.ok && result.success`, the `catch`
branch for a thrown error, and the `finally` clause `setUploading(false)`
applied on every path. -/
def handleUploadFinish (fetchResult : Except String FetchResult)
    (s : RecorderState) : RecorderState :=
  let s1 :=
    match fetchResult with
    | Except.error msg =>
        { s with uploadStatus := "Error uploading to Walrus: " ++ msg
                 toastType := ToastType.error
                 showToast := true }
    | Except.ok r =>
        if r.ok && r.success then
          { s with uploadStatus := "Upload successful! Blob ID: " ++ blobIdText r.blobId
                   blobId := r.blobId
                   toastType := ToastType.success
                   showToast := true
                   audioBlob := none }
        else
          { s with uploadStatus := "Upload failed: " ++ jsErrorOrUnknown r.error
                   toastType := ToastType.error
                   showToast := true }
  { s1 with uploading := false }

/-- `handleUpload` run to completion: the missing-recording early return,
or the begin/await/finish sequence. The second component counts the HTTP
requests issued (the one `fetch('/api/upload-walrus')`; a thrown fetch is
still the one issued attempt). -/
def handleUpload (fetchResult : Except String FetchResult)
    (s : RecorderState) : RecorderState × Nat :=
  match s.audioBlob with
  | none => ({ s with uploadStatus := "No recording to upload." }, 0)
  | some _ => (handleUploadFinish fetchResult (handleUploadBegin s), 1)

/-- `startRecording`: on success `getUserMedia` resolves, the ref gets a
recorder, `setIsRecording(true)`, `setUploadStatus('')`; on a thrown
error only the status message is set. -/
def startRecording (outcome : Except String Unit) (s : RecorderState) : RecorderState :=
  match outcome with
  | Except.ok _ =>
      { s with mediaRecorder := true
               isRecording := true
               uploadStatus := "" }
  | Except.error msg =>
      { s with uploadStatus := "Failed to access microphone: " ++ msg }

/-- `stopRecording`: if the ref holds a recorder, stop it and
`setIsRecording(false)`; otherwise do nothing. -/
def stopRecording (s : RecorderState) : RecorderState :=
  if s.mediaRecorder then { s with isRecording := false } else s

/-- The recorder's `onstop` callback: assemble the chunks into a blob and
`setAudioBlob` it. -/
def onStopEvent (bytes : List Nat) (s : RecorderState) : RecorderState :=
  { s with audioBlob := some bytes }

/-- C10: invoked with `audioBlob` null, `handleUpload` only sets the
status to 'No recording to upload.', issues no HTTP request, and leaves
every other piece of state unchanged. -/
theorem handleUpload_no_recording (fetchResult : Except String FetchResult)
    (s : RecorderState) (h : s.audioBlob = none) :
    handleUpload fetchResult s =
      ({ s with uploadStatus := "No recording to upload." }, 0) := by
  simp [handleUpload, h]

/-- C10 witness. -/
theorem handleUpload_no_recording_witness :
    handleUpload (Except.ok { ok := true, success := true, blobId := some "idD",
                              error := none }) recorderInit =
      ({ recorderInit with uploadStatus := "No recording to upload." }, 0) :=
  handleUpload_no_recording _ recorderInit rfl

/-- C9: with a recording present, `handleUpload` clears `audioBlob` on
the success branch only; the thrown-error branch and the
non-ok/non-success branch leave it as it was. -/
theorem audioBlob_cleared_only_on_success (fetchResult : Except String FetchResult)
    (s : RecorderState) (b : List Nat) (hb : s.audioBlob = some b) :
    (∀ r, fetchResult = Except.ok r → (r.ok && r.success) = true →
        (handleUpload fetchResult s).1.audioBlob = none) ∧
    (∀ msg, fetchResult = Except.error msg →
        (handleUpload fetchResult s).1.audioBlob = some b) ∧
    (∀ r, fetchResult = Except.ok r → (r.ok && r.success) = false →
        (handleUpload fetchResult s).1.audioBlob = some b) := by
  refine ⟨?_, ?_, ?_⟩
  · rintro r rfl hr
    simp [handleUpload, hb, handleUploadFinish, handleUploadBegin, hr]
  · rintro msg rfl
    simp [handleUpload, hb, handleUploadFinish, handleUploadBegin]
  · rintro r rfl hr
    simp [handleUpload, hb, handleUploadFinish, handleUploadBegin, hr]

/-- C9 witness (on the thrown-error branch at a concrete state). -/
theorem audioBlob_cleared_only_on_success_witness :
    (handleUpload (Except.error "net down")
        { recorderInit with audioBlob := some [5] }).1.audioBlob = some [5] :=
  (audioBlob_cleared_only_on_success (Except.error "net down")
      { recorderInit with audioBlob := some [5] } [5] rfl).2.1 "net down" rfl

/-- C3: with a recording present, if the response is ok and
`result.success` is truthy, the status string set afterwards contains the
returned `result.blobId`; and if the fetch or parse throws, the status
string set afterwards contains the thrown error's message. -/
theorem status_shows_blobId_or_error (fetchResult : Except String FetchResult)
    (s : RecorderState) (b : List Nat) (hb : s.audioBlob = some b) :
    (∀ r id, fetchResult = Except.ok r → r.ok = true → r.success = true →
        r.blobId = some id →
        ∃ pre post, (handleUpload fetchResult s).1.uploadStatus = pre ++ id ++ post) ∧
    (∀ msg, fetchResult = Except.error msg →
        ∃ pre post, (handleUpload fetchResult s).1.uploadStatus = pre ++ msg ++ post) := by
  constructor
  · rintro r id rfl hok hsucc hid
    refine ⟨"Upload successful! Blob ID: ", "", ?_⟩
    simp [handleUpload, hb, handleUploadFinish, handleUploadBegin, hok, hsucc, hid,
      blobIdText]
  · rintro msg rfl
    refine ⟨"Error uploading to Walrus: ", "", ?_⟩
    simp [handleUpload, hb, handleUploadFinish, handleUploadBegin]

/-- C3 witness (success branch at a concrete response). -/
theorem status_shows_blobId_or_error_witness :
    ∃ pre post,
      (handleUpload
          (Except.ok { ok := true, success := true, blobId := some "idE", error := none })
          { recorderInit with audioBlob := some [6] }).1.uploadStatus =
        pre ++ "idE" ++ post :=
  (status_shows_blobId_or_error
      (Except.ok { ok := true, success := true, blobId := some "idE", error := none })
      { recorderInit with audioBlob := some [6] } [6] rfl).1
    { ok := true, success := true, blobId := some "idE", error := none } "idE"
    rfl rfl rfl rfl

/-- C5: with a recording present, `handleUpload` issues exactly one HTTP
request whatever the outcome, resets `uploading` to false on every path,
and on each failure path sets the status to a human-readable error string
(the fixed error prefix followed by the message shown). -/
theorem handleUpload_one_request_and_cleanup (fetchResult : Except String FetchResult)
    (s : RecorderState) (b : List Nat) (hb : s.audioBlob = some b) :
    (handleUpload fetchResult s).2 = 1 ∧
    (handleUpload fetchResult s).1.uploading = false ∧
    (∀ msg, fetchResult = Except.error msg →
        (handleUpload fetchResult s).1.uploadStatus =
          "Error uploading to Walrus: " ++ msg) ∧
    (∀ r, fetchResult = Except.ok r → (r.ok && r.success) = false →
        (handleUpload fetchResult s).1.uploadStatus =
          "Upload failed: " ++ jsErrorOrUnknown r.error) := by
  refine ⟨?_, ?_, ?_, ?_⟩
  · simp [handleUpload, hb]
  · match fetchResult with
    | Except.error msg => simp [handleUpload, hb, handleUploadFinish, handleUploadBegin]
    | Except.ok r =>
      by_cases hr : (r.ok && r.success) = true <;>
        simp [handleUpload, hb, handleUploadFinish, handleUploadBegin, hr]
  · rintro msg rfl
    simp [handleUpload, hb, handleUploadFinish, handleUploadBegin]
  · rintro r rfl hr
    simp [handleUpload, hb, handleUploadFinish, handleUploadBegin, hr]

/-- C5 witness (non-ok response with an error field, at a concrete state). -/
theorem handleUpload_one_request_and_cleanup_witness :
    (handleUpload (Except.ok { ok := false, success := false, blobId := none,
                               error := some "bad gateway" })
        { recorderInit with audioBlob := some [2] }).2 = 1 ∧
    (handleUpload (Except.ok { ok := false, success := false, blobId := none,
                               error := some "bad gateway" })
        { recorderInit with audioBlob := some [2] }).1.uploading = false :=
  ⟨(handleUpload_one_request_and_cleanup _ _ [2] rfl).1,
   (handleUpload_one_request_and_cleanup _ _ [2] rfl).2.1⟩

/-! ### The component's UI state machine

One step per handler invocation. Each constructor's guard is the negation
of the corresponding button's `disabled` condition in the JSX
(`disabled={isRecording || uploading}` for Start,
`disabled={!isRecording || uploading}` for Stop,
`disabled={!audioBlob || uploading}` for Upload); `handleUpload` is split
at its `await` into the synchronous begin and the asynchronous finish,
since the state between the two is rendered. The recorder's `onstop`
callback fires on no button, so it carries no guard. -/
inductive Step : RecorderState → RecorderState → Prop where
  | start (s : RecorderState) (outcome : Except String Unit)
      (h : (s.isRecording || s.uploading) = false) :
      Step s (startRecording outcome s)
  | stop (s : RecorderState)
      (h : (!s.isRecording || s.uploading) = false) :
      Step s (stopRecording s)
  | recorded (s : RecorderState) (bytes : List Nat) :
      Step s (onStopEvent bytes s)
  | uploadBegin (s : RecorderState)
      (h : (s.audioBlob.isNone || s.uploading) = false) :
      Step s (handleUploadBegin s)
  | uploadFinish (s : RecorderState) (fetchResult : Except String FetchResult)
      (h : s.uploading = true) :
      Step s (handleUploadFinish fetchResult s)

/-- States reachable from the initial state by guarded steps. -/
inductive Reachable : RecorderState → Prop where
  | init : Reachable recorderInit
  | step {s t : RecorderState} : Reachable s → Step s t → Reachable t

/-- The same step relation, restricted so that an upload only begins
while no recording is in progress. -/
inductive StepNR : RecorderState → RecorderState → Prop where
  | start (s : RecorderState) (outcome : Except String Unit)
      (h : (s.isRecording || s.uploading) = false) :
      StepNR s (startRecording outcome s)
  | stop (s : RecorderState)
      (h : (!s.isRecording || s.uploading) = false) :
      StepNR s (stopRecording s)
  | recorded (s : RecorderState) (bytes : List Nat) :
      StepNR s (onStopEvent bytes s)
  | uploadBegin (s : RecorderState)
      (h : (s.audioBlob.isNone || s.uploading) = false)
      (hnr : s.isRecording = false) :
      StepNR s (handleUploadBegin s)
  | uploadFinish (s : RecorderState) (fetchResult : Except String FetchResult)
      (h : s.uploading = true) :
      StepNR s (handleUploadFinish fetchResult s)

/-- States reachable when upload is never begun mid-recording. -/
inductive ReachableNR : RecorderState → Prop where
  | init : ReachableNR recorderInit
  | step {s t : RecorderState} : ReachableNR s → StepNR s t → ReachableNR t

/-- The state reached by: record, stop, recorder delivers the blob,
record again (which does not clear `audioBlob`), then click Upload while
the second recording runs. -/
def bothFlagsState : RecorderState :=
  { isRecording := true
    audioBlob := some [0]
    uploading := true
    uploadStatus := "Uploading to Walrus..."
    showToast := false
    toastType := ToastType.success
    blobId := none
    mediaRecorder := true }

/-- C6 counterexample: a state with `isRecording` and `uploading` both
true is reachable while respecting every button's disabled condition,
because `startRecording` does not clear `audioBlob`, so the Upload button
stays enabled during a second recording. -/
theorem recording_and_uploading_both_true :
    Reachable bothFlagsState ∧
      bothFlagsState.isRecording = true ∧ bothFlagsState.uploading = true := by
  refine ⟨?_, rfl, rfl⟩
  have h0 : bothFlagsState =
      handleUploadBegin (startRecording (Except.ok ())
        (onStopEvent [0] (stopRecording (startRecording (Except.ok ()) recorderInit)))) := by
    decide
  rw [h0]
  exact Reachable.step
    (Reachable.step
      (Reachable.step
        (Reachable.step
          (Reachable.step Reachable.init (Step.start _ (Except.ok ()) (by decide)))
          (Step.stop _ (by decide)))
        (Step.recorded _ [0]))
      (Step.start _ (Except.ok ()) (by decide)))
    (Step.uploadBegin _ (by decide))

/-- C6 amended: provided `handleUpload` is only invoked while no
recording is in progress, `isRecording` and `uploading` are never both
true in any state reachable by handler invocations that respect the
buttons' disabled conditions. -/
theorem not_recording_and_uploading {s : RecorderState} (h : ReachableNR s) :
    (s.isRecording && s.uploading) = false := by
  induction h with
  | init => rfl
  | step hs hstep ih =>
    rename_i u t
    cases hstep with
    | start outcome hg =>
      simp only [Bool.or_eq_false_iff] at hg
      cases outcome with
      | ok v => simp [startRecording, hg.2]
      | error msg => simpa [startRecording] using ih
    | stop hg =>
      simp only [Bool.or_eq_false_iff] at hg
      by_cases hm : u.mediaRecorder
      · simp [stopRecording, hm]
      · simpa [stopRecording, hm] using ih
    | recorded bytes => simpa [onStopEvent] using ih
    | uploadBegin hg hnr => simp [handleUploadBegin, hnr]
    | uploadFinish fetchResult hg =>
      cases fetchResult with
      | error msg => simp [handleUploadFinish]
      | ok r =>
        by_cases hr : (r.ok && r.success) = true <;> simp [handleUploadFinish, hr]

/-- C6 amended witness. -/
theorem not_recording_and_uploading_witness :
    (recorderInit.isRecording && recorderInit.uploading) = false :=
  not_recording_and_uploading ReachableNR.init
